import Mathlib

/-!
Shallow embedding of the `users` CRUD service (src/server/src): the data
model from `models.rs`, the SQL statements issued by the handlers in
`handlers.rs` interpreted against the SQLite table declared in `main.rs`
(`id INTEGER PRIMARY KEY AUTOINCREMENT, name TEXT NOT NULL,
email TEXT NOT NULL UNIQUE`), and the five request handlers themselves.

The database is modelled as the list of stored rows in insertion order
together with the next rowid to be assigned by AUTOINCREMENT.  SQL
statements are deterministic functions of that state; the only storage
errors that can arise in the model are `rowNotFound` (a single-row fetch
matching nothing, sqlx's `Error::RowNotFound`) and `uniqueViolation`
(the `UNIQUE` constraint on `email`).  Handlers return the new database
state paired with `Except (Nat × String) α`: `.error (s, m)` is the Rust
`Err((StatusCode, String))`, and a successful `Json` body renders as
HTTP 200 (`httpStatus`); `delete_user` returns its status code in the
`Ok` payload, exactly as the Rust handler returns `StatusCode::NO_CONTENT`.
-/

/-- `User` from models.rs: `{id: i64, name: String, email: String}`. -/
structure User where
  id : Int
  name : String
  email : String
deriving DecidableEq, Repr

/-- `CreateUser` from models.rs: both fields required. -/
structure CreateUser where
  name : String
  email : String
deriving DecidableEq, Repr

/-- `UpdateUser` from models.rs: both fields optional. -/
structure UpdateUser where
  name : Option String
  email : Option String
deriving DecidableEq, Repr

/-- The state of the SQLite `users` table: stored rows in insertion order,
plus the next rowid AUTOINCREMENT will assign. -/
structure DB where
  rows : List User
  nextRowid : Int
deriving DecidableEq, Repr

/-- The empty table, as created at startup. -/
def emptyDB : DB := ⟨[], 1⟩

/-- Storage-layer errors that can arise in the model. -/
inductive DbError where
  | rowNotFound
  | uniqueViolation
deriving DecidableEq, Repr

/-- The `Display` text of each error, as sqlx renders it. -/
def DbError.msg : DbError → String
  | .rowNotFound => "no rows returned by a query that expected to return at least one row"
  | .uniqueViolation => "error returned from database: UNIQUE constraint failed: users.email"

/-- `internal` from handlers.rs: map any error to `(500, its message)`. -/
def internal (e : DbError) : Nat × String := (500, e.msg)

/-- `SELECT id, name, email FROM users WHERE id = ?` run through `fetch_one`:
the first stored row with this id, or `RowNotFound`. -/
def fetchOne (db : DB) (id : Int) : Except DbError User :=
  match db.rows.find? (fun r => r.id == id) with
  | some u => .ok u
  | none => .error .rowNotFound

/-- `INSERT INTO users (name, email) VALUES (?, ?)` against the schema of
main.rs: fails with a `UNIQUE` violation when the email is already stored,
otherwise appends a row with the next rowid and returns
`last_insert_rowid()`. -/
def insertUser (db : DB) (name email : String) : Except DbError (DB × Int) :=
  if db.rows.any (fun r => r.email == email) then
    .error .uniqueViolation
  else
    .ok (⟨db.rows ++ [⟨db.nextRowid, name, email⟩], db.nextRowid + 1⟩, db.nextRowid)

/-- `UPDATE users SET name = COALESCE(?, name), email = COALESCE(?, email)
WHERE id = ?`: every row matching the id gets each column replaced when a
binding is present and kept otherwise (`COALESCE` with a NULL binding keeps
the column).  The `UNIQUE` constraint on `email` fails the statement when
an updated row's new email is the email of a row with a different id.
Returns the new state and the affected-row count. -/
def updateQuery (db : DB) (id : Int) (name? email? : Option String) :
    Except DbError (DB × Nat) :=
  let targets := db.rows.filter (fun r => r.id == id)
  if targets.any (fun r =>
      db.rows.any (fun r' => r'.id != id && r'.email == email?.getD r.email)) then
    .error .uniqueViolation
  else
    .ok (⟨db.rows.map (fun r =>
            if r.id == id then ⟨r.id, name?.getD r.name, email?.getD r.email⟩ else r),
          db.nextRowid⟩,
         targets.length)

/-- `DELETE FROM users WHERE id = ?`: removes every row matching the id;
returns the new state and `rows_affected()`. -/
def deleteQuery (db : DB) (id : Int) : DB × Nat :=
  (⟨db.rows.filter (fun r => r.id != id), db.nextRowid⟩,
   (db.rows.filter (fun r => r.id == id)).length)

/-- Insert a row into a list kept in ascending id order. -/
def insertById (u : User) : List User → List User
  | [] => [u]
  | v :: vs => if u.id ≤ v.id then u :: v :: vs else v :: insertById u vs

/-- The `ORDER BY id` of the list query: sort the stored rows by id. -/
def sortById : List User → List User
  | [] => []
  | u :: us => insertById u (sortById us)

/-- `list_users` from handlers.rs:
`SELECT id, name, email FROM users ORDER BY id` fetched with `fetch_all`,
errors mapped through `internal`. -/
def list_users (db : DB) : Except (Nat × String) (List User) :=
  .ok (sortById db.rows)

/-- `create_user` from handlers.rs: INSERT (errors through `internal`),
then re-SELECT the row by `last_insert_rowid()` (errors through
`internal`), returning the fetched row. -/
def create_user (db : DB) (payload : CreateUser) :
    DB × Except (Nat × String) User :=
  match insertUser db payload.name payload.email with
  | .error e => (db, .error (internal e))
  | .ok (db', id) =>
    match fetchOne db' id with
    | .ok u => (db', .ok u)
    | .error e => (db', .error (internal e))

/-- `get_user` from handlers.rs: single-row SELECT; `RowNotFound` becomes
`(404, "User not found")`, any other error goes through `internal`. -/
def get_user (db : DB) (id : Int) : Except (Nat × String) User :=
  match fetchOne db id with
  | .ok u => .ok u
  | .error .rowNotFound => .error (404, "User not found")
  | .error e => .error (internal e)

/-- `update_user` from handlers.rs: the COALESCE UPDATE (errors through
`internal`), then a re-SELECT of the row whose errors — including
`RowNotFound` — all go through `internal`. -/
def update_user (db : DB) (id : Int) (payload : UpdateUser) :
    DB × Except (Nat × String) User :=
  match updateQuery db id payload.name payload.email with
  | .error e => (db, .error (internal e))
  | .ok (db', _) =>
    match fetchOne db' id with
    | .ok u => (db', .ok u)
    | .error e => (db', .error (internal e))

/-- `delete_user` from handlers.rs: DELETE (errors through `internal`);
zero affected rows give `(404, "User not found")`, otherwise the handler
returns `StatusCode::NO_CONTENT` (204) with no body. -/
def delete_user (db : DB) (id : Int) : DB × Except (Nat × String) Nat :=
  let res := deleteQuery db id
  if res.2 == 0 then
    (res.1, .error (404, "User not found"))
  else
    (res.1, .ok 204)

/-- The HTTP status of a handler result: axum renders `Ok(Json(_))` as
200 and `Err((s, _))` as `s`.  (`delete_user` carries its success status
in the `Ok` payload instead.) -/
def httpStatus {α : Type} : Except (Nat × String) α → Nat
  | .ok _ => 200
  | .error (s, _) => s

/-- Well-formedness of a table state, as the schema of main.rs guarantees
for every reachable state: ids are pairwise distinct (PRIMARY KEY), emails
are pairwise distinct (UNIQUE), and every id is below the next rowid
(AUTOINCREMENT). -/
def WF (db : DB) : Prop :=
  (db.rows.map User.id).Nodup ∧
  (db.rows.map User.email).Nodup ∧
  ∀ u ∈ db.rows, u.id < db.nextRowid

instance (db : DB) : Decidable (WF db) := by
  unfold WF; infer_instance

/-- One column of a SQL table declaration. -/
structure ColumnSpec where
  colName : String
  colType : String
  primaryKey : Bool
  autoincrement : Bool
  notNull : Bool
  unique : Bool
deriving DecidableEq, Repr

/-- The columns of the `CREATE TABLE IF NOT EXISTS users` statement
executed by `main` in main.rs (the `init_db` helper in db.rs is not part
of the module tree — main.rs declares only `models`, `handlers` and
`routes` — so the DDL that runs is this one). -/
def usersTableColumns : List ColumnSpec :=
  [⟨"id", "INTEGER", true, true, false, false⟩,
   ⟨"name", "TEXT", false, false, true, false⟩,
   ⟨"email", "TEXT", false, false, true, true⟩]

/-- Startup from main.rs: connect (`?` propagates failure out of `main`),
then run the CREATE TABLE statement (`?` again); only if both succeed does
the process reach serving, with the table present and empty on first run. -/
def startup (connect createTable : Except String Unit) :
    Except String (DB × List ColumnSpec) :=
  match connect with
  | .error e => .error e
  | .ok _ =>
    match createTable with
    | .error e => .error e
    | .ok _ => .ok (emptyDB, usersTableColumns)


/-! ### Helper lemmas about the storage model -/

/-- A single-row fetch over rows none of which carry the id finds nothing. -/
theorem find?_id_eq_none {l : List User} {i : Int} (h : ∀ u ∈ l, u.id ≠ i) :
    l.find? (fun r => r.id == i) = none := by
  rw [List.find?_eq_none]
  intro x hx
  simpa using h x hx

/-- With pairwise-distinct ids, the fetch of a stored row's id finds that row. -/
theorem find?_id_of_mem {l : List User} (hnd : (l.map User.id).Nodup)
    {u : User} (hu : u ∈ l) : l.find? (fun r => r.id == u.id) = some u := by
  induction l with
  | nil => cases hu
  | cons v vs ih =>
    rw [List.map_cons, List.nodup_cons] at hnd
    obtain ⟨hvnotin, hnd'⟩ := hnd
    rcases List.mem_cons.mp hu with rfl | hmem
    · exact List.find?_cons_of_pos _ (by simp)
    · have hne : v.id ≠ u.id := by
        intro he
        apply hvnotin
        rw [he]
        exact List.mem_map_of_mem User.id hmem
      rw [List.find?_cons_of_neg _ (by simpa using hne)]
      exact ih hnd' hmem

/-- With pairwise-distinct ids, the WHERE clause of a stored row's id
selects exactly that row. -/
theorem filter_id_of_mem {l : List User} (hnd : (l.map User.id).Nodup)
    {u : User} (hu : u ∈ l) : l.filter (fun r => r.id == u.id) = [u] := by
  induction l with
  | nil => cases hu
  | cons v vs ih =>
    rw [List.map_cons, List.nodup_cons] at hnd
    obtain ⟨hvnotin, hnd'⟩ := hnd
    rcases List.mem_cons.mp hu with rfl | hmem
    · rw [List.filter_cons_of_pos (by simp)]
      have hnil : vs.filter (fun r => r.id == u.id) = [] := by
        rw [List.filter_eq_nil_iff]
        intro a ha
        simp only [beq_iff_eq]
        intro he
        apply hvnotin
        rw [← he]
        exact List.mem_map_of_mem User.id ha
      rw [hnil]
    · have hne : v.id ≠ u.id := by
        intro he
        apply hvnotin
        rw [he]
        exact List.mem_map_of_mem User.id hmem
      rw [List.filter_cons_of_neg (by simpa using hne)]
      exact ih hnd' hmem

/-- The WHERE clause of an id no row carries selects nothing. -/
theorem filter_id_eq_nil {l : List User} {i : Int} (h : ∀ u ∈ l, u.id ≠ i) :
    l.filter (fun r => r.id == i) = [] := by
  rw [List.filter_eq_nil_iff]
  intro a ha
  simpa using h a ha

/-- A COALESCE update of an id no row carries leaves every row unchanged. -/
theorem map_update_eq_self {l : List User} {i : Int} (name? email? : Option String)
    (h : ∀ u ∈ l, u.id ≠ i) :
    l.map (fun r =>
        if r.id == i then ⟨r.id, name?.getD r.name, email?.getD r.email⟩ else r) = l := by
  have hcg : ∀ a ∈ l,
      (if a.id == i then (⟨a.id, name?.getD a.name, email?.getD a.email⟩ : User) else a) =
        (fun b => b) a := by
    intro a ha
    simp [h a ha]
  rw [List.map_congr_left hcg, List.map_id']

/-- `update_user` on an id matching no row: the UPDATE succeeds affecting
zero rows, the re-fetch fails with `RowNotFound`, and the handler maps that
failure through `internal`, producing a 500 — not a 404. -/
theorem update_user_miss {db : DB} {i : Int} (p : UpdateUser)
    (h : ∀ u ∈ db.rows, u.id ≠ i) :
    update_user db i p = (db, .error (500, DbError.rowNotFound.msg)) := by
  simp only [update_user, updateQuery, filter_id_eq_nil h, List.any_nil,
    Bool.false_eq_true, if_false, map_update_eq_self p.name p.email h,
    fetchOne, find?_id_eq_none h, internal]

/-- `update_user` on a stored row, when the email it would write does not
belong to any other row: the UPDATE rewrites exactly that row with the
COALESCE semantics and the re-fetch returns the rewritten row. -/
theorem update_user_hit {db : DB} (h : WF db) {u : User} (hu : u ∈ db.rows)
    (name? email? : Option String)
    (hfresh : ∀ v ∈ db.rows, v.id ≠ u.id → v.email ≠ email?.getD u.email) :
    update_user db u.id ⟨name?, email?⟩ =
      (⟨db.rows.map (fun r =>
          if r.id == u.id then ⟨r.id, name?.getD r.name, email?.getD r.email⟩ else r),
        db.nextRowid⟩,
       .ok ⟨u.id, name?.getD u.name, email?.getD u.email⟩) := by
  obtain ⟨hids, hemails, hlt⟩ := h
  have htar : db.rows.filter (fun r => r.id == u.id) = [u] := filter_id_of_mem hids hu
  have hconf : db.rows.any
      (fun r' => r'.id != u.id && r'.email == email?.getD u.email) = false := by
    rw [List.any_eq_false]
    intro r' hr'
    simp only [Bool.and_eq_true, bne_iff_ne, beq_iff_eq, not_and]
    exact hfresh r' hr'
  have hfind : (db.rows.map (fun r =>
      if r.id == u.id then ⟨r.id, name?.getD r.name, email?.getD r.email⟩ else r)).find?
        (fun r => r.id == u.id) =
      some ⟨u.id, name?.getD u.name, email?.getD u.email⟩ := by
    rw [List.find?_map]
    have hcomp : ((fun r : User => r.id == u.id) ∘ (fun r =>
        if r.id == u.id then ⟨r.id, name?.getD r.name, email?.getD r.email⟩ else r)) =
        fun r : User => r.id == u.id := by
      funext r
      by_cases hr : r.id = u.id <;> simp [Function.comp, hr]
    rw [hcomp, find?_id_of_mem hids hu]
    simp
  simp only [update_user, updateQuery, htar, List.any_cons, List.any_nil,
    Bool.or_false, hconf, Bool.false_eq_true, if_false, fetchOne, hfind]

/-- `create_user` when the posted email is not yet stored: the INSERT
appends a row carrying the next rowid and the posted fields, and the
re-fetch by `last_insert_rowid()` returns exactly that row. -/
theorem create_user_fresh {db : DB} (hlt : ∀ v ∈ db.rows, v.id < db.nextRowid)
    (p : CreateUser) (hfree : ∀ v ∈ db.rows, v.email ≠ p.email) :
    create_user db p =
      (⟨db.rows ++ [⟨db.nextRowid, p.name, p.email⟩], db.nextRowid + 1⟩,
       .ok ⟨db.nextRowid, p.name, p.email⟩) := by
  have hins : db.rows.any (fun r => r.email == p.email) = false := by
    rw [List.any_eq_false]
    intro r hr
    simpa using hfree r hr
  have hfind : (db.rows ++ [(⟨db.nextRowid, p.name, p.email⟩ : User)]).find?
      (fun r => r.id == db.nextRowid) = some ⟨db.nextRowid, p.name, p.email⟩ := by
    rw [List.find?_append, find?_id_eq_none (fun v hv => ne_of_lt (hlt v hv)),
      Option.none_or]
    simp [List.find?]
  simp only [create_user, insertUser, hins, Bool.false_eq_true, if_false,
    fetchOne, hfind]

/-! ### Sorting lemmas for the list query -/

/-- `insertById` produces a permutation of consing the element. -/
theorem insertById_perm (u : User) (l : List User) :
    List.Perm (insertById u l) (u :: l) := by
  induction l with
  | nil => exact List.Perm.refl _
  | cons v vs ih =>
    by_cases hle : u.id ≤ v.id
    · rw [insertById, if_pos hle]
    · rw [insertById, if_neg hle]
      exact (ih.cons v).trans (List.Perm.swap u v vs)

/-- `sortById` permutes the stored rows. -/
theorem sortById_perm (l : List User) : List.Perm (sortById l) l := by
  induction l with
  | nil => exact List.Perm.refl _
  | cons u us ih => exact (insertById_perm u (sortById us)).trans (ih.cons u)

/-- `insertById` preserves ascending id order. -/
theorem insertById_pairwise (u : User) {l : List User}
    (h : l.Pairwise (fun a b => a.id ≤ b.id)) :
    (insertById u l).Pairwise (fun a b => a.id ≤ b.id) := by
  induction l with
  | nil => simp [insertById]
  | cons v vs ih =>
    obtain ⟨hv, hvs⟩ := List.pairwise_cons.mp h
    by_cases hle : u.id ≤ v.id
    · rw [insertById, if_pos hle]
      refine List.pairwise_cons.mpr ⟨?_, h⟩
      intro b hb
      rcases List.mem_cons.mp hb with rfl | hbvs
      · exact hle
      · exact le_trans hle (hv b hbvs)
    · rw [insertById, if_neg hle]
      refine List.pairwise_cons.mpr ⟨?_, ih hvs⟩
      intro b hb
      have hb' : b ∈ u :: vs := (insertById_perm u vs).mem_iff.mp hb
      rcases List.mem_cons.mp hb' with rfl | hbvs
      · exact le_of_not_le hle
      · exact hv b hbvs

/-- `sortById` sorts the rows into ascending id order. -/
theorem sortById_pairwise (l : List User) :
    (sortById l).Pairwise (fun a b => a.id ≤ b.id) := by
  induction l with
  | nil => exact List.Pairwise.nil
  | cons u us ih => exact insertById_pairwise u ih

/-- Over pairwise-distinct ids the sorted order is strictly increasing. -/
theorem sortById_strict {l : List User} (hnd : (l.map User.id).Nodup) :
    (sortById l).Pairwise (fun a b => a.id < b.id) := by
  have hperm : List.Perm (l.map User.id) ((sortById l).map User.id) :=
    (List.Perm.map User.id (sortById_perm l)).symm
  have hnd' : ((sortById l).map User.id).Nodup := hperm.nodup hnd
  have hne : (sortById l).Pairwise (fun a b => a.id ≠ b.id) :=
    List.pairwise_map.mp hnd'
  exact ((sortById_pairwise l).and hne).imp fun hab => lt_of_le_of_ne hab.1 hab.2

/-! ### Claim theorems -/

/-- Claim C4: for GET /users/:id, a stored row with the requested id yields
200 with that User; no matching row yields 404 "User not found"; and an id
never issued (at or above the next rowid) in particular yields 404.  In the
model every other storage error goes through `internal`, whose status is
500. -/
theorem get_user_spec (db : DB) (h : WF db) (i : Int) :
    (∀ u ∈ db.rows, u.id = i →
        get_user db i = .ok u ∧ httpStatus (get_user db i) = 200)
  ∧ ((∀ u ∈ db.rows, u.id ≠ i) →
        get_user db i = .error (404, "User not found")
          ∧ httpStatus (get_user db i) = 404)
  ∧ (db.nextRowid ≤ i →
        get_user db i = .error (404, "User not found"))
  ∧ (∀ e : DbError, (internal e).1 = 500) := by
  obtain ⟨hids, hemails, hlt⟩ := h
  refine ⟨?_, ?_, ?_, fun e => rfl⟩
  · intro u hu hui
    subst hui
    have hget : get_user db u.id = .ok u := by
      simp only [get_user, fetchOne, find?_id_of_mem hids hu]
    exact ⟨hget, by rw [hget]; rfl⟩
  · intro hnone
    have hget : get_user db i = .error (404, "User not found") := by
      simp only [get_user, fetchOne, find?_id_eq_none hnone]
    exact ⟨hget, by rw [hget]; rfl⟩
  · intro hge
    have hnone : ∀ u ∈ db.rows, u.id ≠ i := by
      intro u hu
      exact ne_of_lt (lt_of_lt_of_le (hlt u hu) hge)
    simp only [get_user, fetchOne, find?_id_eq_none hnone]

/-- Witness for C4 at concrete states: the stored row is returned, a
missing id and a never-issued id give 404. -/
theorem get_user_spec_witness :
    get_user ⟨[⟨1, "Ana", "ana@x.com"⟩], 2⟩ 1 = .ok ⟨1, "Ana", "ana@x.com"⟩
  ∧ get_user ⟨[⟨1, "Ana", "ana@x.com"⟩], 2⟩ 7 = .error (404, "User not found") :=
  ⟨((get_user_spec ⟨[⟨1, "Ana", "ana@x.com"⟩], 2⟩ (by decide) 1).1
      ⟨1, "Ana", "ana@x.com"⟩ (by decide) (by decide)).1,
   (get_user_spec ⟨[⟨1, "Ana", "ana@x.com"⟩], 2⟩ (by decide) 7).2.2.1 (by decide)⟩

/-- Claim C6: GET /users returns exactly the stored rows (a permutation of
the table), in strictly increasing id order, and the empty array on an
empty table. -/
theorem list_users_spec (db : DB) (h : WF db) :
    ∃ l, list_users db = .ok l
      ∧ List.Perm l db.rows
      ∧ l.Pairwise (fun a b => a.id < b.id)
      ∧ (db.rows = [] → l = []) := by
  refine ⟨sortById db.rows, rfl, sortById_perm db.rows, sortById_strict h.1, ?_⟩
  intro hnil
  rw [hnil]
  rfl

/-- Witness for C6 at a concrete out-of-order state. -/
theorem list_users_spec_witness :
    ∃ l, list_users ⟨[⟨3, "c", "c@x"⟩, ⟨1, "a", "a@x"⟩, ⟨2, "b", "b@x"⟩], 4⟩ = .ok l
      ∧ List.Perm l [⟨3, "c", "c@x"⟩, ⟨1, "a", "a@x"⟩, ⟨2, "b", "b@x"⟩]
      ∧ l.Pairwise (fun a b => a.id < b.id)
      ∧ ([⟨3, "c", "c@x"⟩, ⟨1, "a", "a@x"⟩, (⟨2, "b", "b@x"⟩ : User)] = [] → l = []) :=
  list_users_spec ⟨[⟨3, "c", "c@x"⟩, ⟨1, "a", "a@x"⟩, ⟨2, "b", "b@x"⟩], 4⟩ (by decide)

/-- Claim C3: DELETE /users/:id answers 404 "User not found" when the
DELETE statement affects zero rows and 204 (no body: the handler's `Ok`
carries only the status code) when it affects one row; under the schema
invariants the affected count is 0 exactly when no row has the id and 1
exactly when one does.  Any other storage error goes through `internal`
(status 500). -/
theorem delete_user_spec (db : DB) (i : Int) :
    ((deleteQuery db i).2 = 0 →
        delete_user db i = ((deleteQuery db i).1, .error (404, "User not found")))
  ∧ ((deleteQuery db i).2 = 1 →
        delete_user db i = ((deleteQuery db i).1, .ok 204))
  ∧ (WF db →
      (((deleteQuery db i).2 = 0 ↔ ∀ u ∈ db.rows, u.id ≠ i)
        ∧ ((deleteQuery db i).2 = 1 ↔ ∃ u ∈ db.rows, u.id = i))) := by
  refine ⟨?_, ?_, ?_⟩
  · intro h0
    simp only [delete_user, h0]
    rfl
  · intro h1
    simp only [delete_user, h1]
    rfl
  · intro hwf
    obtain ⟨hids, hemails, hlt⟩ := hwf
    constructor
    · constructor
      · intro h0 u hu hui
        have hnil : db.rows.filter (fun r => r.id == i) = [] :=
          List.length_eq_zero.mp h0
        have : u ∈ db.rows.filter (fun r => r.id == i) :=
          List.mem_filter.mpr ⟨hu, by simpa using hui⟩
        rw [hnil] at this
        cases this
      · intro hnone
        simp only [deleteQuery, filter_id_eq_nil hnone, List.length_nil]
    · constructor
      · intro h1
        obtain ⟨a, ha⟩ := List.length_eq_one.mp h1
        have : a ∈ db.rows.filter (fun r => r.id == i) := by
          rw [ha]
          exact List.mem_singleton_self a
        obtain ⟨hmem, hid⟩ := List.mem_filter.mp this
        exact ⟨a, hmem, by simpa using hid⟩
      · intro ⟨u, hu, hui⟩
        subst hui
        simp only [deleteQuery, filter_id_of_mem hids hu, List.length_singleton]

/-- Witness for C3 at concrete states: deleting a missing id gives 404,
deleting the stored row gives 204. -/
theorem delete_user_spec_witness :
    delete_user ⟨[⟨1, "Ana", "ana@x.com"⟩], 2⟩ 7 =
      ((deleteQuery ⟨[⟨1, "Ana", "ana@x.com"⟩], 2⟩ 7).1, .error (404, "User not found"))
  ∧ delete_user ⟨[⟨1, "Ana", "ana@x.com"⟩], 2⟩ 1 =
      ((deleteQuery ⟨[⟨1, "Ana", "ana@x.com"⟩], 2⟩ 1).1, .ok 204) :=
  ⟨(delete_user_spec ⟨[⟨1, "Ana", "ana@x.com"⟩], 2⟩ 7).1 (by decide),
   (delete_user_spec ⟨[⟨1, "Ana", "ana@x.com"⟩], 2⟩ 1).2.1 (by decide)⟩

/-- Claim C5: a successful POST /users (here: any POST whose email is not
already stored, the only way the INSERT succeeds) returns 200 with a
created User carrying the posted name and email, and GET /users/:id with
the returned id, with no intervening writes, returns that same User. -/
theorem create_then_get_spec (db : DB) (h : WF db) (p : CreateUser)
    (hfree : ∀ v ∈ db.rows, v.email ≠ p.email) :
    ∃ db' u, create_user db p = (db', .ok u)
      ∧ httpStatus (create_user db p).2 = 200
      ∧ u.name = p.name ∧ u.email = p.email
      ∧ get_user db' u.id = .ok u := by
  obtain ⟨hids, hemails, hlt⟩ := h
  have hc := create_user_fresh hlt p hfree
  refine ⟨_, _, hc, by rw [hc]; rfl, rfl, rfl, ?_⟩
  have hfind : (db.rows ++ [(⟨db.nextRowid, p.name, p.email⟩ : User)]).find?
      (fun r => r.id == db.nextRowid) = some ⟨db.nextRowid, p.name, p.email⟩ := by
    rw [List.find?_append, find?_id_eq_none (fun v hv => ne_of_lt (hlt v hv)),
      Option.none_or]
    simp [List.find?]
  simp only [get_user, fetchOne, hfind]

/-- Witness for C5 on the empty table. -/
theorem create_then_get_spec_witness :
    ∃ db' u, create_user emptyDB ⟨"Ana", "ana@x.com"⟩ = (db', .ok u)
      ∧ httpStatus (create_user emptyDB ⟨"Ana", "ana@x.com"⟩).2 = 200
      ∧ u.name = "Ana" ∧ u.email = "ana@x.com"
      ∧ get_user db' u.id = .ok u :=
  create_then_get_spec emptyDB (by decide) ⟨"Ana", "ana@x.com"⟩ (by decide)

/-- Claim C7: two POSTs carrying the same (previously unstored) email:
the first succeeds with 200 and a created User, the second fails with 500
— the INSERT itself reports the UNIQUE-constraint storage error, with no
application-level pre-check anywhere in the handler. -/
theorem duplicate_email_spec (db : DB) (h : WF db) (p q : CreateUser)
    (hdup : q.email = p.email) (hfree : ∀ v ∈ db.rows, v.email ≠ p.email) :
    ∃ db₁ u, create_user db p = (db₁, .ok u)
      ∧ httpStatus (create_user db p).2 = 200
      ∧ (create_user db₁ q).2 = .error (500, DbError.uniqueViolation.msg)
      ∧ httpStatus (create_user db₁ q).2 = 500 := by
  obtain ⟨hids, hemails, hlt⟩ := h
  have hc := create_user_fresh hlt p hfree
  have hany : (db.rows ++ [(⟨db.nextRowid, p.name, p.email⟩ : User)]).any
      (fun r => r.email == q.email) = true := by
    rw [List.any_eq_true]
    exact ⟨⟨db.nextRowid, p.name, p.email⟩,
      List.mem_append.mpr (Or.inr (List.mem_singleton_self _)),
      by simp [hdup]⟩
  have hsnd : (create_user ⟨db.rows ++ [(⟨db.nextRowid, p.name, p.email⟩ : User)],
      db.nextRowid + 1⟩ q).2 = .error (500, DbError.uniqueViolation.msg) := by
    simp only [create_user, insertUser, hany, if_true, internal]
  refine ⟨_, _, hc, by rw [hc]; rfl, hsnd, by rw [hsnd]; rfl⟩

/-- Witness for C7 on the empty table. -/
theorem duplicate_email_spec_witness :
    ∃ db₁ u, create_user emptyDB ⟨"Ana", "ana@x.com"⟩ = (db₁, .ok u)
      ∧ httpStatus (create_user emptyDB ⟨"Ana", "ana@x.com"⟩).2 = 200
      ∧ (create_user db₁ ⟨"Bea", "ana@x.com"⟩).2 =
          .error (500, DbError.uniqueViolation.msg)
      ∧ httpStatus (create_user db₁ ⟨"Bea", "ana@x.com"⟩).2 = 500 :=
  duplicate_email_spec emptyDB (by decide) ⟨"Ana", "ana@x.com"⟩ ⟨"Bea", "ana@x.com"⟩
    (by decide) (by decide)

/-- Counterexample to claim C1: on the empty table, PUT /users/1 responds
500 — not 404 — because `update_user` maps the re-fetch's `RowNotFound`
through `internal` like any other storage error. -/
theorem update_missing_counterexample :
    update_user emptyDB 1 ⟨none, none⟩ =
      (emptyDB, .error (500,
        "no rows returned by a query that expected to return at least one row"))
  ∧ httpStatus (update_user emptyDB 1 ⟨none, none⟩).2 ≠ 404 := by
  constructor
  · rfl
  · decide

/-- Claim C1 as amended: for every PUT /users/:id whose id matches no row,
the zero-row UPDATE succeeds, the re-fetch fails with row-not-found, and
the handler maps that failure through `internal`, so the response status
is 500 (the same status as every other storage error), with the table left
unchanged. -/
theorem update_missing_spec (db : DB) (i : Int) (p : UpdateUser)
    (h : ∀ u ∈ db.rows, u.id ≠ i) :
    update_user db i p = (db, .error (500, DbError.rowNotFound.msg))
  ∧ httpStatus (update_user db i p).2 = 500 := by
  refine ⟨update_user_miss p h, ?_⟩
  rw [update_user_miss p h]
  rfl

/-- Witness for the amended C1 on the empty table. -/
theorem update_missing_spec_witness :
    update_user emptyDB 3 ⟨some "Zoe", none⟩ =
      (emptyDB, .error (500, DbError.rowNotFound.msg))
  ∧ httpStatus (update_user emptyDB 3 ⟨some "Zoe", none⟩).2 = 500 :=
  update_missing_spec emptyDB 3 ⟨some "Zoe", none⟩ (by decide)

/-- Packaging of `update_user_hit`: the success result, its 200 status and
the membership of the rewritten row in the new table. -/
theorem update_user_hit_mem {db : DB} (h : WF db) {u : User} (hu : u ∈ db.rows)
    (name? email? : Option String)
    (hfresh : ∀ v ∈ db.rows, v.id ≠ u.id → v.email ≠ email?.getD u.email) :
    ∃ db', update_user db u.id ⟨name?, email?⟩ =
        (db', .ok ⟨u.id, name?.getD u.name, email?.getD u.email⟩)
      ∧ httpStatus (update_user db u.id ⟨name?, email?⟩).2 = 200
      ∧ (⟨u.id, name?.getD u.name, email?.getD u.email⟩ : User) ∈ db'.rows := by
  have hh := update_user_hit h hu name? email? hfresh
  refine ⟨_, hh, by rw [hh]; rfl, ?_⟩
  have hmm := List.mem_map_of_mem (fun r =>
    if r.id == u.id then (⟨r.id, name?.getD r.name, email?.getD r.email⟩ : User) else r) hu
  simpa using hmm

/-- With pairwise-distinct stored emails, a row's own email is not the
email of any row with a different id. -/
theorem own_email_fresh {db : DB} (h : WF db) {u : User} (hu : u ∈ db.rows) :
    ∀ v ∈ db.rows, v.id ≠ u.id → v.email ≠ u.email := by
  intro v hv hvid he
  exact hvid (congrArg User.id (List.inj_on_of_nodup_map h.2.1 hv hu he))

/-- Counterexample to claim C2: with Ana (id 1) and Bob (id 2) stored,
PUT /users/1 with body `{email: "bob@x.com"}` — an existing row, an
email-only body — responds 500 (the UNIQUE constraint on email fails the
UPDATE), not 200. -/
theorem update_existing_counterexample :
    (update_user ⟨[⟨1, "Ana", "ana@x.com"⟩, ⟨2, "Bob", "bob@x.com"⟩], 3⟩ 1
        ⟨none, some "bob@x.com"⟩).2 =
      .error (500, "error returned from database: UNIQUE constraint failed: users.email")
  ∧ httpStatus (update_user ⟨[⟨1, "Ana", "ana@x.com"⟩, ⟨2, "Bob", "bob@x.com"⟩], 3⟩ 1
        ⟨none, some "bob@x.com"⟩).2 ≠ 200 := by
  constructor
  · rfl
  · decide

/-- Claim C2 as amended: for every PUT /users/:id on an existing row,
a name-only body replaces the name and leaves the stored email unchanged;
an email-only body replaces the email and leaves the name unchanged, and a
body with both replaces both, provided the supplied email is not already
the email of a different row (otherwise the UPDATE fails the UNIQUE
constraint and the response is a 500 storage error); in the non-conflicting
cases the response is 200 with the resulting row, which is stored. -/
theorem update_partial_spec (db : DB) (h : WF db) (u : User) (hu : u ∈ db.rows) :
    (∀ n, ∃ db', update_user db u.id ⟨some n, none⟩ = (db', .ok ⟨u.id, n, u.email⟩)
        ∧ httpStatus (update_user db u.id ⟨some n, none⟩).2 = 200
        ∧ (⟨u.id, n, u.email⟩ : User) ∈ db'.rows)
  ∧ (∀ e, (∀ v ∈ db.rows, v.id ≠ u.id → v.email ≠ e) →
      ∃ db', update_user db u.id ⟨none, some e⟩ = (db', .ok ⟨u.id, u.name, e⟩)
        ∧ httpStatus (update_user db u.id ⟨none, some e⟩).2 = 200
        ∧ (⟨u.id, u.name, e⟩ : User) ∈ db'.rows)
  ∧ (∀ n e, (∀ v ∈ db.rows, v.id ≠ u.id → v.email ≠ e) →
      ∃ db', update_user db u.id ⟨some n, some e⟩ = (db', .ok ⟨u.id, n, e⟩)
        ∧ httpStatus (update_user db u.id ⟨some n, some e⟩).2 = 200
        ∧ (⟨u.id, n, e⟩ : User) ∈ db'.rows)
  ∧ (∀ n e, (∃ v ∈ db.rows, v.id ≠ u.id ∧ v.email = e) →
      (update_user db u.id ⟨n, some e⟩).2 = .error (500, DbError.uniqueViolation.msg)) := by
  refine ⟨?_, ?_, ?_, ?_⟩
  · intro n
    exact update_user_hit_mem h hu (some n) none (own_email_fresh h hu)
  · intro e hfr
    exact update_user_hit_mem h hu none (some e) hfr
  · intro n e hfr
    exact update_user_hit_mem h hu (some n) (some e) hfr
  · intro n e ⟨v, hv, hvid, hve⟩
    have htar : db.rows.filter (fun r => r.id == u.id) = [u] :=
      filter_id_of_mem h.1 hu
    have hconf : (db.rows.filter (fun r => r.id == u.id)).any (fun r =>
        db.rows.any (fun r' => r'.id != u.id &&
          r'.email == (some e).getD r.email)) = true := by
      rw [htar]
      simp only [List.any_cons, List.any_nil, Bool.or_false, List.any_eq_true]
      exact ⟨v, hv, by simp [hvid, hve]⟩
    simp only [update_user, updateQuery, hconf, if_true, internal]

/-- Witness for the amended C2: all three body shapes against a concrete
two-row table, and the conflicting-email 500. -/
theorem update_partial_spec_witness :
    (∃ db', update_user ⟨[⟨1, "Ana", "ana@x.com"⟩, ⟨2, "Bob", "bob@x.com"⟩], 3⟩ 1
          ⟨some "Ann", none⟩ = (db', .ok ⟨1, "Ann", "ana@x.com"⟩)
        ∧ httpStatus (update_user ⟨[⟨1, "Ana", "ana@x.com"⟩, ⟨2, "Bob", "bob@x.com"⟩], 3⟩ 1
            ⟨some "Ann", none⟩).2 = 200
        ∧ (⟨1, "Ann", "ana@x.com"⟩ : User) ∈ db'.rows)
  ∧ (∃ db', update_user ⟨[⟨1, "Ana", "ana@x.com"⟩, ⟨2, "Bob", "bob@x.com"⟩], 3⟩ 1
          ⟨none, some "a2@x.com"⟩ = (db', .ok ⟨1, "Ana", "a2@x.com"⟩)
        ∧ httpStatus (update_user ⟨[⟨1, "Ana", "ana@x.com"⟩, ⟨2, "Bob", "bob@x.com"⟩], 3⟩ 1
            ⟨none, some "a2@x.com"⟩).2 = 200
        ∧ (⟨1, "Ana", "a2@x.com"⟩ : User) ∈ db'.rows)
  ∧ (∃ db', update_user ⟨[⟨1, "Ana", "ana@x.com"⟩, ⟨2, "Bob", "bob@x.com"⟩], 3⟩ 1
          ⟨some "Ann", some "a2@x.com"⟩ = (db', .ok ⟨1, "Ann", "a2@x.com"⟩)
        ∧ httpStatus (update_user ⟨[⟨1, "Ana", "ana@x.com"⟩, ⟨2, "Bob", "bob@x.com"⟩], 3⟩ 1
            ⟨some "Ann", some "a2@x.com"⟩).2 = 200
        ∧ (⟨1, "Ann", "a2@x.com"⟩ : User) ∈ db'.rows)
  ∧ (update_user ⟨[⟨1, "Ana", "ana@x.com"⟩, ⟨2, "Bob", "bob@x.com"⟩], 3⟩ 1
        ⟨none, some "bob@x.com"⟩).2 = .error (500, DbError.uniqueViolation.msg) :=
  ⟨(update_partial_spec ⟨[⟨1, "Ana", "ana@x.com"⟩, ⟨2, "Bob", "bob@x.com"⟩], 3⟩
      (by decide) ⟨1, "Ana", "ana@x.com"⟩ (by decide)).1 "Ann",
   (update_partial_spec ⟨[⟨1, "Ana", "ana@x.com"⟩, ⟨2, "Bob", "bob@x.com"⟩], 3⟩
      (by decide) ⟨1, "Ana", "ana@x.com"⟩ (by decide)).2.1 "a2@x.com" (by decide),
   (update_partial_spec ⟨[⟨1, "Ana", "ana@x.com"⟩, ⟨2, "Bob", "bob@x.com"⟩], 3⟩
      (by decide) ⟨1, "Ana", "ana@x.com"⟩ (by decide)).2.2.1 "Ann" "a2@x.com" (by decide),
   (update_partial_spec ⟨[⟨1, "Ana", "ana@x.com"⟩, ⟨2, "Bob", "bob@x.com"⟩], 3⟩
      (by decide) ⟨1, "Ana", "ana@x.com"⟩ (by decide)).2.2.2 none "bob@x.com" (by decide)⟩

/-- Claim C10: PUT /users/:id on an existing row with the empty body
(neither name nor email present) leaves the whole table — in particular
that row — unchanged and responds 200 with the unchanged User. -/
theorem update_empty_body_spec (db : DB) (h : WF db) (u : User) (hu : u ∈ db.rows) :
    update_user db u.id ⟨none, none⟩ = (db, .ok u)
  ∧ httpStatus (update_user db u.id ⟨none, none⟩).2 = 200 := by
  have hh := update_user_hit h hu none none (own_email_fresh h hu)
  have hmap : db.rows.map (fun r =>
      if r.id == u.id then (⟨r.id, r.name, r.email⟩ : User) else r) = db.rows := by
    have hcg : ∀ a ∈ db.rows,
        (if a.id == u.id then (⟨a.id, a.name, a.email⟩ : User) else a) =
          (fun b => b) a := by
      intro a ha
      by_cases hcase : a.id = u.id
      · rw [if_pos (by simpa using hcase)]
      · rw [if_neg (by simpa using hcase)]
    rw [List.map_congr_left hcg, List.map_id']
  simp only [Option.getD_none] at hh
  rw [hmap] at hh
  exact ⟨hh, by rw [hh]; rfl⟩

/-- Witness for C10 at a concrete two-row table. -/
theorem update_empty_body_spec_witness :
    update_user ⟨[⟨1, "Ana", "ana@x.com"⟩, ⟨2, "Bob", "bob@x.com"⟩], 3⟩ 2
        ⟨none, none⟩ =
      (⟨[⟨1, "Ana", "ana@x.com"⟩, ⟨2, "Bob", "bob@x.com"⟩], 3⟩,
       .ok ⟨2, "Bob", "bob@x.com"⟩)
  ∧ httpStatus (update_user ⟨[⟨1, "Ana", "ana@x.com"⟩, ⟨2, "Bob", "bob@x.com"⟩], 3⟩ 2
        ⟨none, none⟩).2 = 200 :=
  update_empty_body_spec ⟨[⟨1, "Ana", "ana@x.com"⟩, ⟨2, "Bob", "bob@x.com"⟩], 3⟩
    (by decide) ⟨2, "Bob", "bob@x.com"⟩ (by decide)

/-- Counterexample to claim C9: POST /users with body `{name: "", email: ""}`
succeeds — no layer rejects empty strings, only NULLs — and the table then
stores a row whose name and email are both the empty string. -/
theorem empty_fields_counterexample :
    (create_user emptyDB ⟨"", ""⟩).1.rows = [⟨1, "", ""⟩]
  ∧ (create_user emptyDB ⟨"", ""⟩).2 = .ok ⟨1, "", ""⟩ := by
  constructor
  · rfl
  · rfl

/-- Claim C9 as amended: every stored row carries both fields as present
strings (NOT NULL is satisfied by construction), holding exactly the
strings the create request supplied — but non-emptiness is not enforced
anywhere, so an empty name or email is stored verbatim. -/
theorem create_stores_posted_fields (db : DB)
    (hlt : ∀ v ∈ db.rows, v.id < db.nextRowid)
    (p : CreateUser) (hfree : ∀ v ∈ db.rows, v.email ≠ p.email) :
    ∃ u, (create_user db p).2 = .ok u
      ∧ u.name = p.name ∧ u.email = p.email
      ∧ u ∈ (create_user db p).1.rows := by
  rw [create_user_fresh hlt p hfree]
  exact ⟨⟨db.nextRowid, p.name, p.email⟩, rfl, rfl, rfl, by simp⟩

/-- Witness for the amended C9, with the empty strings themselves. -/
theorem create_stores_posted_fields_witness :
    ∃ u, (create_user emptyDB ⟨"", ""⟩).2 = .ok u
      ∧ u.name = "" ∧ u.email = ""
      ∧ u ∈ (create_user emptyDB ⟨"", ""⟩).1.rows :=
  create_stores_posted_fields emptyDB (by decide) ⟨"", ""⟩ (by decide)

/-- Claim C8: the startup of main.rs creates (if absent) the `users` table
whose columns are exactly id (INTEGER, primary key, autoincrement), name
(TEXT, NOT NULL) and email (TEXT, NOT NULL, UNIQUE); startup succeeds
exactly when both the connection and the table creation succeed, and on
any failure the `?` operator aborts `main` — the process does not start. -/
theorem startup_spec :
    usersTableColumns.find? (fun c => c.colName == "id") =
      some ⟨"id", "INTEGER", true, true, false, false⟩
  ∧ usersTableColumns.find? (fun c => c.colName == "name") =
      some ⟨"name", "TEXT", false, false, true, false⟩
  ∧ usersTableColumns.find? (fun c => c.colName == "email") =
      some ⟨"email", "TEXT", false, false, true, true⟩
  ∧ usersTableColumns.length = 3
  ∧ (∀ c t : Except String Unit,
      ((startup c t).isOk = true ↔ (c.isOk = true ∧ t.isOk = true)))
  ∧ (∀ c t : Except String Unit, (startup c t).isOk = true →
      startup c t = .ok (emptyDB, usersTableColumns)) := by
  refine ⟨by decide, by decide, by decide, rfl, ?_, ?_⟩
  · intro c t
    cases c <;> cases t <;> simp [startup, Except.isOk, Except.toBool]
  · intro c t hok
    cases c <;> cases t <;> simp_all [startup, Except.isOk, Except.toBool]

/-- Witness for C8: a successful startup yields the empty table with the
declared columns; startup with a failing connection is not ok. -/
theorem startup_spec_witness :
    startup (Except.ok ()) (Except.ok ()) = .ok (emptyDB, usersTableColumns)
  ∧ ((startup (Except.error "connection refused") (Except.ok ())).isOk = true →
      False) :=
  ⟨startup_spec.2.2.2.2.2 (Except.ok ()) (Except.ok ()) (by decide),
   fun hok => by
    have hko := (startup_spec.2.2.2.2.1
      (Except.error "connection refused") (Except.ok ())).mp hok
    simpa [Except.isOk, Except.toBool] using hko.1⟩
